import Mathlib

/-
  Verification development for the lunnel reverse-tunnel server,
  shallow embedding of server/server.go.

  The file models the observable behaviour of the connection dispatcher
  (handleConn, lines 149-225), the vhost dispatchers (handleHttpsConn,
  lines 238-261, and handleHttpConn, lines 279-303), the management
  endpoint (tunnelQuery, lines 95-136) and the numeric startup checks of
  Main (lines 40-80).  External collaborators (the msg codec, the crypto
  and compression transforms, the smux library, the filesystem and the
  network) are represented by explicit outcome parameters; the control
  flow itself is transcribed from the Go source.
-/

namespace Lunnel

/-- Configuration fields of serverConf that server.go reads. -/
structure ServerConfig where
  tlsCert : String
  tlsKey : String
  aesSecretKey : String
  httpPort : Nat
  httpsPort : Nat
  maxIdlePipes : String
  maxStreams : String
  logFile : String
deriving DecidableEq

/-- Handshake message types of the msg package that server.go dispatches on. -/
inductive MsgType where
  | clientHello
  | serverHello
  | pipeClientHello
  | error
deriving DecidableEq

/-- Payload of a ClientHello handshake message (fields read by handleConn). -/
structure ClientHello where
  encryptMode : String
  enableCompress : Bool
deriving DecidableEq

/-- The first framed message read from a control-listener connection.
    The wire codec is external; we model the decoded result. -/
inductive Msg where
  | clientHello (ch : ClientHello)
  | pipeClientHello (clientId : String)
  | other (t : MsgType)
deriving DecidableEq

/-- Byte-stream transforms applied to the raw connection. -/
inductive Transform where
  | tlsServer
  | cryptoStream
  | compStream
deriving DecidableEq

/-- Outcomes of the external fallible operations invoked by the handlers:
    message writes, certificate loading from the filesystem, the crypto
    transform constructor, smux session setup and stream accept, the pipe
    handshake and the HTTP host rewrite. -/
structure Env where
  writeErrorOk : Bool
  writeHelloOk : Bool
  tlsLoadOk : Bool
  cryptoOk : Bool
  smuxOk : Bool
  acceptOk : Bool
  pipeOk : Bool
  rewriteOk : Bool
deriving DecidableEq

/-- Observable events of handleConn, in program order. -/
inductive Event where
  | sent (m : MsgType)
  | applied (t : Transform)
  | sessionCreated (maxReceiveBuffer : Nat)
  | streamAccepted
  | controlHandoff
  | pipeHandoff
  | closed
  | logged
deriving DecidableEq

/-- Success of newTlsConfig (server.go lines 321-331): tls.LoadX509KeyPair
    reads both configured files, so it fails whenever either path is the
    empty string; with both paths set, the outcome is the filesystem
    outcome held by the environment. -/
def newTlsConfigOk (cfg : ServerConfig) (env : Env) : Prop :=
  cfg.tlsCert ≠ "" ∧ cfg.tlsKey ≠ "" ∧ env.tlsLoadOk = true

instance (cfg : ServerConfig) (env : Env) : Decidable (newTlsConfigOk cfg env) := by
  unfold newTlsConfigOk
  infer_instance

/-- Events of server.go lines 201-219: optional compression wrap, smux
    server session with MaxReceiveBuffer = 419430, one AcceptStream, then
    the debug log and the handoff to handleControl; the deferred
    sess.Close fires when the handler returns. -/
def muxPhase (env : Env) (ch : ClientHello) : List Event :=
  (if ch.enableCompress then [Event.applied Transform.compStream] else []) ++
    if env.smuxOk then
      Event.sessionCreated 419430 ::
        (if env.acceptOk then
          [Event.streamAccepted, Event.logged, Event.controlHandoff, Event.closed]
        else [Event.logged, Event.closed])
    else [Event.closed, Event.logged]

/-- Events of server.go lines 177-200: build underlyingConn from the
    requested encryption mode.  Note the final else branch: a mode other
    than tls/aes/none gets an Error message, a close and a log. -/
def transformPhase (cfg : ServerConfig) (env : Env) (ch : ClientHello) : List Event :=
  if ch.encryptMode = "tls" then
    if newTlsConfigOk cfg env then Event.applied Transform.tlsServer :: muxPhase env ch
    else [Event.closed]
  else if ch.encryptMode = "aes" then
    if env.cryptoOk = true then Event.applied Transform.cryptoStream :: muxPhase env ch
    else [Event.closed, Event.logged]
  else if ch.encryptMode = "none" then muxPhase env ch
  else [Event.sent MsgType.error, Event.closed, Event.logged]

/-- Events of the ClientHello branch of handleConn (server.go lines
    156-219).  Lines 158-176 answer the hello: an Error for a tls request
    without a configured cert/key pair or an aes request without a
    configured secret, a ServerHello otherwise.  When the write succeeds
    the code does NOT return after an Error: it falls through into the
    transform phase exactly as transcribed here. -/
def handleClientHello (cfg : ServerConfig) (env : Env) (ch : ClientHello) : List Event :=
  if ch.encryptMode = "tls" ∧ (cfg.tlsCert = "" ∨ cfg.tlsKey = "") then
    if env.writeErrorOk = true then Event.sent MsgType.error :: transformPhase cfg env ch
    else [Event.sent MsgType.error, Event.closed]
  else if ch.encryptMode = "aes" ∧ cfg.aesSecretKey = "" then
    if env.writeErrorOk = true then Event.sent MsgType.error :: transformPhase cfg env ch
    else [Event.sent MsgType.error, Event.closed]
  else
    if env.writeHelloOk = true then Event.sent MsgType.serverHello :: transformPhase cfg env ch
    else [Event.sent MsgType.serverHello, Event.closed]

/-- handleConn (server.go lines 149-225).  first = none models a failed
    msg.ReadMsg.  The final else branch (lines 222-224) only logs: it
    contains no conn.Close call. -/
def handleConn (cfg : ServerConfig) (env : Env) (first : Option Msg) : List Event :=
  match first with
  | none => [Event.closed, Event.logged]
  | some (Msg.clientHello ch) => handleClientHello cfg env ch
  | some (Msg.pipeClientHello _) =>
      if env.pipeOk then [Event.pipeHandoff]
      else [Event.pipeHandoff, Event.closed, Event.logged]
  | some (Msg.other _) => [Event.logged]

/-- Concrete configuration with tls configured and no aes secret. -/
def cfgNoAes : ServerConfig :=
  { tlsCert := "cert.pem", tlsKey := "key.pem", aesSecretKey := ""
  , httpPort := 80, httpsPort := 443
  , maxIdlePipes := "4", maxStreams := "6", logFile := "" }

/-- Environment in which every external operation succeeds. -/
def envAllOk : Env :=
  { writeErrorOk := true, writeHelloOk := true, tlsLoadOk := true
  , cryptoOk := true, smuxOk := true, acceptOk := true
  , pipeOk := true, rewriteOk := true }

/-- A registered Tunnel as seen by server.go: its public address
    (tunnelConfig.PublicAddr()), its HttpHostRewrite config and its name. -/
structure Tunnel where
  publicAddr : String
  httpHostRewrite : String
  name : String
deriving DecidableEq

/-- The TunnelMap registry: public address keys mapped to Tunnels.  The Go
    map with its RWMutex is modelled as an association list; tunnelQuery
    and the vhost handlers only read it. -/
abbrev Registry := List (String × Tunnel)

/-- Observable events of the vhost handlers, in program order. -/
inductive VEvent where
  | deadlineSet (seconds : Nat)
  | sniffed (host : String)
  | tlsTerminated
  | wroteBadGateway (viaTls : Bool)
  | hostRewritten (target : String)
  | deadlineCleared
  | proxied (name : String)
  | closed
  | logged
deriving DecidableEq

/-- handleHttpsConn (server.go lines 238-261).  sniff = none models a
    failed or timed-out vhost.GetHttpsHostname; some host is the sniffed
    SNI host.  The registry lookup key is built exactly as in line 247;
    newTlsConfig is called before the hit/miss branch, and tls.Server
    wraps the sniffed connection before either the proxy or the gateway
    error write.  The deferred conn.Close ends every path. -/
def handleHttpsConn (cfg : ServerConfig) (env : Env) (reg : Registry)
    (sniff : Option String) : List VEvent :=
  VEvent.deadlineSet 20 ::
    match sniff with
    | none => [VEvent.logged, VEvent.closed]
    | some host =>
      let hit := reg.lookup ("https://" ++ host ++ ":" ++ toString cfg.httpsPort)
      VEvent.sniffed host ::
        if newTlsConfigOk cfg env then
          VEvent.tlsTerminated ::
            match hit with
            | some t => [VEvent.deadlineCleared, VEvent.proxied t.name, VEvent.closed]
            | none => [VEvent.wroteBadGateway true, VEvent.closed]
        else [VEvent.logged, VEvent.closed]

/-- handleHttpConn (server.go lines 279-303).  The lookup key is built
    exactly as in line 288; on a hit with a configured HttpHostRewrite the
    rewrite runs while the deadline is still set, and a rewrite failure
    returns before the deadline is cleared. -/
def handleHttpConn (cfg : ServerConfig) (env : Env) (reg : Registry)
    (sniff : Option String) : List VEvent :=
  VEvent.deadlineSet 20 ::
    match sniff with
    | none => [VEvent.logged, VEvent.closed]
    | some host =>
      VEvent.sniffed host ::
        match reg.lookup ("http://" ++ host ++ ":" ++ toString cfg.httpPort) with
        | some t =>
          if t.httpHostRewrite ≠ "" then
            if env.rewriteOk then
              [VEvent.hostRewritten t.httpHostRewrite, VEvent.deadlineCleared,
               VEvent.proxied t.name, VEvent.closed]
            else [VEvent.logged, VEvent.closed]
          else [VEvent.deadlineCleared, VEvent.proxied t.name, VEvent.closed]
        | none => [VEvent.wroteBadGateway false, VEvent.closed]

/-- Request body of the management query (struct tunnelStateReq). -/
structure tunnelStateReq where
  RemoteAddr : String
deriving DecidableEq

/-- Chunks written to the management response body. -/
inductive RespChunk where
  | text (s : String)
  | tunnelsJson (tunnels : List String)
deriving DecidableEq

/-- State of a Go net/http ResponseWriter, as far as tunnelQuery uses it. -/
structure HttpResponse where
  status : Option Nat
  chunks : List RespChunk
deriving DecidableEq

/-- The fresh ResponseWriter handed to the handler. -/
def emptyResponse : HttpResponse := { status := none, chunks := [] }

/-- Modelled from Go net/http: only the first WriteHeader call takes
    effect; a later call is a superfluous no-op. -/
def writeHeader (w : HttpResponse) (code : Nat) : HttpResponse :=
  if w.status.isSome then w else { w with status := some code }

/-- Modelled from Go net/http: a body write first sends an implicit 200
    header if none was written yet, then appends the chunk. -/
def writeChunk (w : HttpResponse) (c : RespChunk) : HttpResponse :=
  { writeHeader w 200 with chunks := w.chunks ++ [c] }

/-- The Tunnels list computed by tunnelQuery (server.go lines 111-125):
    a single lookup when RemoteAddr is given, the public address of every
    registry entry otherwise. -/
def tunnelQueryTunnels (reg : Registry) (q : tunnelStateReq) : List String :=
  if q.RemoteAddr ≠ "" then
    match reg.lookup q.RemoteAddr with
    | some t => [t.publicAddr]
    | none => []
  else reg.map (fun p => p.2.publicAddr)

/-- tunnelQuery (server.go lines 95-136).  body = none models an
    unreadable request body, some none a body json.Unmarshal rejects,
    some (some q) a parsed query.  marshalOk is the outcome of
    json.Marshal of the response; note the code calls WriteHeader(200) at
    line 128 before marshalling. -/
def tunnelQuery (reg : Registry) (marshalOk : Bool)
    (body : Option (Option tunnelStateReq)) : HttpResponse :=
  match body with
  | none => writeChunk (writeHeader emptyResponse 400) (RespChunk.text "req body is empty")
  | some none =>
      writeChunk (writeHeader emptyResponse 400) (RespChunk.text "unmarshal req body failed")
  | some (some q) =>
      let w := writeHeader emptyResponse 200
      if marshalOk then writeChunk w (RespChunk.tunnelsJson (tunnelQueryTunnels reg q))
      else writeChunk (writeHeader w 500) (RespChunk.text "marshal resp body failed")

/-- Go strconv.ParseUint(s, 10, 64): a non-empty string of decimal digits
    whose value fits in 64 bits; no sign and no other characters. -/
def parseUint64 (s : String) : Option Nat :=
  if s.data = [] then none
  else if s.data.all (fun c => c.isDigit) then
    let n := s.data.foldl (fun acc c => acc * 10 + (c.toNat - 48)) 0
    if n < 2 ^ 64 then some n else none
  else none

/-- Outcome of the startup prefix of Main. -/
inductive StartupOutcome where
  | fatal (reason : String)
  | serving (maxIdlePipes maxStreams : Nat)
deriving DecidableEq

/-- Whether startup aborted fatally. -/
def StartupOutcome.isFatal : StartupOutcome → Bool
  | StartupOutcome.fatal _ => true
  | StartupOutcome.serving _ _ => false

/-- Startup prefix of Main (server.go lines 40-80): LoadConfig, the
    optional log-file open, then the two ParseUint checks on MaxIdlePipes
    and MaxStreams; each failure is fatal.  loadConfigOk and logOpenOk
    are the outcomes of the external LoadConfig and os.OpenFile calls. -/
def mainStartup (cfg : ServerConfig) (loadConfigOk logOpenOk : Bool) : StartupOutcome :=
  if loadConfigOk = false then StartupOutcome.fatal "load config failed"
  else if cfg.logFile ≠ "" ∧ logOpenOk = false then StartupOutcome.fatal "open log file failed"
  else match parseUint64 cfg.maxIdlePipes with
    | none => StartupOutcome.fatal "max_idle_pipes must be unsigned integer"
    | some mip =>
      match parseUint64 cfg.maxStreams with
      | none => StartupOutcome.fatal "max_idle_pipes must be unsigned integer"
      | some ms => StartupOutcome.serving mip ms

/-- A small registry holding one http and one https tunnel. -/
def regSample : Registry :=
  [("http://a.example.com:80",
    { publicAddr := "http://a.example.com:80", httpHostRewrite := "", name := "t1" }),
   ("https://b.example.com:443",
    { publicAddr := "https://b.example.com:443", httpHostRewrite := "", name := "t2" })]

/-- Environment in which loading the configured certificate fails. -/
def envNoTls : Env := { envAllOk with tlsLoadOk := false }

theorem serverHello_not_in_muxPhase (env : Env) (ch : ClientHello) :
    Event.sent MsgType.serverHello ∉ muxPhase env ch := by
  unfold muxPhase
  cases h1 : ch.enableCompress <;> cases h2 : env.smuxOk <;> cases h3 : env.acceptOk <;> decide

theorem serverHello_not_in_transformPhase (cfg : ServerConfig) (env : Env) (ch : ClientHello) :
    Event.sent MsgType.serverHello ∉ transformPhase cfg env ch := by
  have hm := serverHello_not_in_muxPhase env ch
  unfold transformPhase
  split
  · split
    · simp [hm]
    · decide
  · split
    · split
      · simp [hm]
      · decide
    · split
      · exact hm
      · decide

/-- C1: evaluation at the failing input.  A ClientHello requesting mode
    aes while the server has no configured secret is answered with an
    Error message, but handleConn then falls through (there is no return
    after the WriteMsg at server.go line 165): it wraps the connection in
    the aes crypto stream and creates a multiplexed smux session for the
    rejected connection, contradicting the claim that the connection is
    closed and no session is created. -/
theorem c1_aes_unsupported_creates_session :
    handleClientHello cfgNoAes envAllOk { encryptMode := "aes", enableCompress := false } =
      [Event.sent MsgType.error, Event.applied Transform.cryptoStream,
       Event.sessionCreated 419430, Event.streamAccepted, Event.logged,
       Event.controlHandoff, Event.closed] ∧
    Event.sessionCreated 419430 ∈
      handleClientHello cfgNoAes envAllOk { encryptMode := "aes", enableCompress := false } := by
  decide

/-- C2 counterexample: mode quic is not one of none, tls, aes, hence
    unsupported, yet the dispatcher sends a ServerHello (the validation at
    server.go lines 158-176 only catches misconfigured tls/aes requests),
    followed later by the Error of line 196.  This refutes the part of the
    claim saying a ServerHello is sent only in the supported case. -/
theorem c2_serverhello_sent_for_unknown_mode :
    (("quic" : String) ≠ "none" ∧ ("quic" : String) ≠ "tls" ∧ ("quic" : String) ≠ "aes") ∧
    Event.sent MsgType.serverHello ∈
      handleClientHello cfgNoAes envAllOk { encryptMode := "quic", enableCompress := false } ∧
    Event.sent MsgType.error ∈
      handleClientHello cfgNoAes envAllOk { encryptMode := "quic", enableCompress := false } := by
  decide

/-- C2 (amended): the dispatcher sends exactly one ServerHello over the
    raw connection, as the very first message and hence before any
    encryption or compression transform, unless the hello requests tls
    without a configured certificate and key or aes without a configured
    secret (in which case no ServerHello is ever sent); in particular a
    mode other than none, tls, aes also receives the ServerHello. -/
theorem c2_amended_serverhello_iff (cfg : ServerConfig) (env : Env) (ch : ClientHello) :
    ((handleClientHello cfg env ch).count (Event.sent MsgType.serverHello) =
      if (ch.encryptMode = "tls" ∧ (cfg.tlsCert = "" ∨ cfg.tlsKey = "")) ∨
          (ch.encryptMode = "aes" ∧ cfg.aesSecretKey = "") then 0 else 1) ∧
    (¬ ((ch.encryptMode = "tls" ∧ (cfg.tlsCert = "" ∨ cfg.tlsKey = "")) ∨
        (ch.encryptMode = "aes" ∧ cfg.aesSecretKey = "")) →
      (handleClientHello cfg env ch).head? = some (Event.sent MsgType.serverHello)) := by
  have hm := serverHello_not_in_transformPhase cfg env ch
  by_cases hA : ch.encryptMode = "tls" ∧ (cfg.tlsCert = "" ∨ cfg.tlsKey = "")
  · refine ⟨?_, fun h => absurd (Or.inl hA) h⟩
    rw [if_pos (Or.inl hA)]
    unfold handleClientHello
    rw [if_pos hA]
    cases hw : env.writeErrorOk <;>
      simp [List.count_cons, List.count_eq_zero.mpr hm]
  · by_cases hB : ch.encryptMode = "aes" ∧ cfg.aesSecretKey = ""
    · refine ⟨?_, fun h => absurd (Or.inr hB) h⟩
      rw [if_pos (Or.inr hB)]
      unfold handleClientHello
      rw [if_neg hA, if_pos hB]
      cases hw : env.writeErrorOk <;>
        simp [List.count_cons, List.count_eq_zero.mpr hm]
    · have hnot : ¬ ((ch.encryptMode = "tls" ∧ (cfg.tlsCert = "" ∨ cfg.tlsKey = "")) ∨
          (ch.encryptMode = "aes" ∧ cfg.aesSecretKey = "")) := by
        rintro (h | h)
        · exact hA h
        · exact hB h
      refine ⟨?_, fun _ => ?_⟩
      · rw [if_neg hnot]
        unfold handleClientHello
        rw [if_neg hA, if_neg hB]
        cases hw : env.writeHelloOk <;>
          simp [List.count_cons, List.count_eq_zero.mpr hm]
      · unfold handleClientHello
        rw [if_neg hA, if_neg hB]
        cases hw : env.writeHelloOk <;> simp

/-- C2 witness: the amended theorem applied at a concrete supported
    hello. -/
theorem c2_amended_serverhello_iff_witness :
    (handleClientHello cfgNoAes envAllOk
        { encryptMode := "none", enableCompress := false }).head? =
      some (Event.sent MsgType.serverHello) :=
  (c2_amended_serverhello_iff cfgNoAes envAllOk
      { encryptMode := "none", enableCompress := false }).2 (by decide)

/-- C3: after a successful ClientHello exchange (supported mode, the
    ServerHello write and all transform and mux operations succeeding),
    the dispatcher applies the encryption transform chosen by the mode
    (none for the identity, tls.Server for tls, the crypto stream for
    aes), then the compression transform exactly when EnableCompress is
    set, creates the smux server session with MaxReceiveBuffer = 419430,
    accepts exactly one stream and hands it to control establishment. -/
theorem c3_secured_stream_pipeline (cfg : ServerConfig) (env : Env) (ch : ClientHello)
    (hsup : ch.encryptMode = "none" ∨
      (ch.encryptMode = "tls" ∧ cfg.tlsCert ≠ "" ∧ cfg.tlsKey ≠ "") ∨
      (ch.encryptMode = "aes" ∧ cfg.aesSecretKey ≠ ""))
    (hw : env.writeHelloOk = true) (htls : env.tlsLoadOk = true)
    (hcr : env.cryptoOk = true) (hsm : env.smuxOk = true) (hac : env.acceptOk = true) :
    handleClientHello cfg env ch =
      Event.sent MsgType.serverHello ::
        ((if ch.encryptMode = "tls" then [Event.applied Transform.tlsServer]
          else if ch.encryptMode = "aes" then [Event.applied Transform.cryptoStream]
          else []) ++
         ((if ch.enableCompress then [Event.applied Transform.compStream] else []) ++
          [Event.sessionCreated 419430, Event.streamAccepted, Event.logged,
           Event.controlHandoff, Event.closed])) := by
  rcases hsup with hnone | ⟨hmode, hc, hk⟩ | ⟨hmode, hs⟩
  · simp [handleClientHello, transformPhase, muxPhase, hnone, hw, hsm, hac]
  · simp [handleClientHello, transformPhase, muxPhase, newTlsConfigOk,
      hmode, hc, hk, hw, htls, hsm, hac]
  · simp [handleClientHello, transformPhase, muxPhase, hmode, hs, hw, hcr, hsm, hac]

/-- C3 witness: the pipeline theorem applied at a concrete tls hello with
    compression enabled. -/
theorem c3_secured_stream_pipeline_witness :
    handleClientHello cfgNoAes envAllOk { encryptMode := "tls", enableCompress := true } =
      Event.sent MsgType.serverHello ::
        ((if ("tls" : String) = "tls" then [Event.applied Transform.tlsServer]
          else if ("tls" : String) = "aes" then [Event.applied Transform.cryptoStream]
          else []) ++
         ((if true then [Event.applied Transform.compStream] else []) ++
          [Event.sessionCreated 419430, Event.streamAccepted, Event.logged,
           Event.controlHandoff, Event.closed])) :=
  c3_secured_stream_pipeline cfgNoAes envAllOk
    { encryptMode := "tls", enableCompress := true }
    (Or.inr (Or.inl ⟨rfl, by decide, by decide⟩)) rfl rfl rfl rfl rfl

/-- C4: evaluation at the failing input.  A first framed message that is
    neither a ClientHello nor a PipeClientHello (here a ServerHello) is
    only logged: the branch at server.go lines 222-224 contains no
    conn.Close, so the connection is left open when the handler finishes,
    contradicting the claim that it is dropped. -/
theorem c4_unknown_type_connection_not_closed :
    handleConn cfgNoAes envAllOk (some (Msg.other MsgType.serverHello)) = [Event.logged] ∧
    Event.closed ∉ handleConn cfgNoAes envAllOk (some (Msg.other MsgType.serverHello)) := by
  decide

/-- C6: evaluation at the failing input.  For a request whose body parses
    but whose response serialization fails, the handler has already called
    WriteHeader(200) at server.go line 128, so the WriteHeader(500) at
    line 131 is a superfluous no-op: the effective status is 200, not the
    500 the claim requires. -/
theorem c6_marshal_failure_still_status_200 :
    (tunnelQuery regSample false (some (some { RemoteAddr := "" }))).status = some 200 ∧
    (tunnelQuery regSample false (some (some { RemoteAddr := "" }))).status ≠ some 500 ∧
    RespChunk.text "marshal resp body failed" ∈
      (tunnelQuery regSample false (some (some { RemoteAddr := "" }))).chunks := by
  decide

/-- C5: for every management query whose body parses, the handler returns
    a 200 response carrying the Tunnels list; with empty RemoteAddr that
    list has one entry per registry entry, containing the public address
    of every tunnel, and with a non-empty RemoteAddr it has at most one
    entry: the public address of the entry keyed by RemoteAddr when
    present, and nothing otherwise. -/
theorem c5_tunnel_query_contents (reg : Registry) (q : tunnelStateReq) :
    tunnelQuery reg true (some (some q)) =
      { status := some 200, chunks := [RespChunk.tunnelsJson (tunnelQueryTunnels reg q)] } ∧
    (q.RemoteAddr = "" →
      (tunnelQueryTunnels reg q).length = reg.length ∧
      ∀ p ∈ reg, (p : String × Tunnel).2.publicAddr ∈ tunnelQueryTunnels reg q) ∧
    (q.RemoteAddr ≠ "" →
      (tunnelQueryTunnels reg q).length ≤ 1 ∧
      (∀ t, reg.lookup q.RemoteAddr = some t → tunnelQueryTunnels reg q = [t.publicAddr]) ∧
      (reg.lookup q.RemoteAddr = none → tunnelQueryTunnels reg q = [])) := by
  refine ⟨rfl, fun hq => ?_, fun hq => ?_⟩
  · unfold tunnelQueryTunnels
    rw [if_neg (by simp [hq])]
    exact ⟨by simp, fun p hp => List.mem_map.mpr ⟨p, hp, rfl⟩⟩
  · unfold tunnelQueryTunnels
    rw [if_pos hq]
    cases hl : reg.lookup q.RemoteAddr <;> simp

/-- C5 witness: the query theorem applied at the empty-RemoteAddr query
    over the sample registry. -/
theorem c5_tunnel_query_contents_witness :
    tunnelQuery regSample true (some (some { RemoteAddr := "" })) =
      { status := some 200,
        chunks := [RespChunk.tunnelsJson (tunnelQueryTunnels regSample { RemoteAddr := "" })] } ∧
    (tunnelQueryTunnels regSample { RemoteAddr := "" }).length = regSample.length :=
  ⟨(c5_tunnel_query_contents regSample { RemoteAddr := "" }).1,
   ((c5_tunnel_query_contents regSample { RemoteAddr := "" }).2.1 rfl).1⟩

/-- C7 counterexample: the sniffed host of an HTTPS connection matches a
    registered tunnel, yet the 20 second deadline is never cleared,
    because loading the server certificate fails (server.go lines 249-252
    return before the SetDeadline of line 256).  This refutes the claimed
    if-and-only-if between the deadline being cleared and the sniffed
    host matching a registered tunnel. -/
theorem c7_matched_host_deadline_not_cleared :
    (regSample.lookup
        ("https://" ++ "b.example.com" ++ ":" ++ toString cfgNoAes.httpsPort)).isSome = true ∧
    VEvent.deadlineCleared ∉ handleHttpsConn cfgNoAes envNoTls regSample (some "b.example.com") ∧
    VEvent.closed ∈ handleHttpsConn cfgNoAes envNoTls regSample (some "b.example.com") := by
  decide

/-- C7 (amended): a 20 second deadline is set on the connection before
    sniffing; the deadline is cleared only if the sniffed host matches a
    registered tunnel, and it is cleared whenever the host matches and the
    subsequent per-connection setup succeeds (the certificate load on
    HTTPS; the host rewrite on HTTP when one is configured); a sniff
    failure or timeout closes the connection without any response. -/
theorem c7_amended_deadline_discipline (cfg : ServerConfig) (env : Env) (reg : Registry)
    (sniff : Option String) :
    ((handleHttpsConn cfg env reg sniff).head? = some (VEvent.deadlineSet 20) ∧
     (handleHttpConn cfg env reg sniff).head? = some (VEvent.deadlineSet 20)) ∧
    (VEvent.deadlineCleared ∈ handleHttpsConn cfg env reg sniff →
      ∃ h t, sniff = some h ∧
        reg.lookup ("https://" ++ h ++ ":" ++ toString cfg.httpsPort) = some t) ∧
    (VEvent.deadlineCleared ∈ handleHttpConn cfg env reg sniff →
      ∃ h t, sniff = some h ∧
        reg.lookup ("http://" ++ h ++ ":" ++ toString cfg.httpPort) = some t) ∧
    (∀ h t, sniff = some h →
      reg.lookup ("https://" ++ h ++ ":" ++ toString cfg.httpsPort) = some t →
      newTlsConfigOk cfg env →
      VEvent.deadlineCleared ∈ handleHttpsConn cfg env reg sniff) ∧
    (∀ h t, sniff = some h →
      reg.lookup ("http://" ++ h ++ ":" ++ toString cfg.httpPort) = some t →
      (t.httpHostRewrite = "" ∨ env.rewriteOk = true) →
      VEvent.deadlineCleared ∈ handleHttpConn cfg env reg sniff) ∧
    (sniff = none →
      handleHttpsConn cfg env reg sniff = [VEvent.deadlineSet 20, VEvent.logged, VEvent.closed] ∧
      handleHttpConn cfg env reg sniff = [VEvent.deadlineSet 20, VEvent.logged, VEvent.closed]) := by
  refine ⟨⟨rfl, rfl⟩, ?_, ?_, ?_, ?_, ?_⟩
  · cases sniff with
    | none => intro hmem; simp [handleHttpsConn] at hmem
    | some h =>
      intro hmem
      refine ⟨h, ?_⟩
      cases hl : reg.lookup ("https://" ++ h ++ ":" ++ toString cfg.httpsPort) with
      | some t => exact ⟨t, rfl, rfl⟩
      | none =>
        exfalso
        by_cases htls : newTlsConfigOk cfg env <;>
          simp [handleHttpsConn, hl, htls] at hmem
  · cases sniff with
    | none => intro hmem; simp [handleHttpConn] at hmem
    | some h =>
      intro hmem
      refine ⟨h, ?_⟩
      cases hl : reg.lookup ("http://" ++ h ++ ":" ++ toString cfg.httpPort) with
      | some t => exact ⟨t, rfl, rfl⟩
      | none =>
        exfalso
        simp [handleHttpConn, hl] at hmem
  · rintro h t rfl hl htls
    simp [handleHttpsConn, hl, htls]
  · rintro h t rfl hl hrw
    rcases hrw with hempty | hok
    · simp [handleHttpConn, hl, hempty]
    · by_cases hre : t.httpHostRewrite = "" <;> simp [handleHttpConn, hl, hre, hok]
  · rintro rfl
    exact ⟨rfl, rfl⟩

/-- C7 witness: the amended theorem applied at a matched HTTPS host with
    the certificate loading successfully. -/
theorem c7_amended_deadline_discipline_witness :
    VEvent.deadlineCleared ∈ handleHttpsConn cfgNoAes envAllOk regSample (some "b.example.com") :=
  (c7_amended_deadline_discipline cfgNoAes envAllOk regSample (some "b.example.com")).2.2.2.1
    "b.example.com"
    { publicAddr := "https://b.example.com:443", httpHostRewrite := "", name := "t2" }
    rfl (by decide) (by decide)

/-- C8 counterexample: an HTTPS connection whose sniffed host has no
    registry entry is closed WITHOUT the gateway-error body being written
    when the certificate load fails (server.go lines 249-252 return before
    the tlsConn.Write of line 259), refuting the universal claim that the
    body is written on every registry miss. -/
theorem c8_unmatched_https_no_gateway_body :
    regSample.lookup
        ("https://" ++ "nope.example.com" ++ ":" ++ toString cfgNoAes.httpsPort) = none ∧
    VEvent.wroteBadGateway true ∉
      handleHttpsConn cfgNoAes envNoTls regSample (some "nope.example.com") ∧
    VEvent.wroteBadGateway false ∉
      handleHttpsConn cfgNoAes envNoTls regSample (some "nope.example.com") ∧
    VEvent.closed ∈ handleHttpsConn cfgNoAes envNoTls regSample (some "nope.example.com") := by
  decide

/-- C8 (amended): vhost dispatch looks the registry up with the key
    scheme ++ :// ++ sniffed host ++ : ++ fixed listener port; on a miss
    the connection is closed and no work stream is allocated, and the
    fixed gateway-error body is written — always on HTTP, and on HTTPS
    exactly when the server certificate loads (inside the terminated TLS
    stream); when the HTTPS certificate load fails, the connection is
    closed with no response at all. -/
theorem c8_amended_gateway_error (cfg : ServerConfig) (env : Env) (reg : Registry) (h : String) :
    (reg.lookup ("http://" ++ h ++ ":" ++ toString cfg.httpPort) = none →
      handleHttpConn cfg env reg (some h) =
        [VEvent.deadlineSet 20, VEvent.sniffed h, VEvent.wroteBadGateway false, VEvent.closed]) ∧
    (reg.lookup ("https://" ++ h ++ ":" ++ toString cfg.httpsPort) = none →
      newTlsConfigOk cfg env →
      handleHttpsConn cfg env reg (some h) =
        [VEvent.deadlineSet 20, VEvent.sniffed h, VEvent.tlsTerminated,
         VEvent.wroteBadGateway true, VEvent.closed]) ∧
    (reg.lookup ("https://" ++ h ++ ":" ++ toString cfg.httpsPort) = none →
      ¬ newTlsConfigOk cfg env →
      handleHttpsConn cfg env reg (some h) =
        [VEvent.deadlineSet 20, VEvent.sniffed h, VEvent.logged, VEvent.closed]) ∧
    (∀ tname, reg.lookup ("http://" ++ h ++ ":" ++ toString cfg.httpPort) = none →
      VEvent.proxied tname ∉ handleHttpConn cfg env reg (some h)) ∧
    (∀ tname, reg.lookup ("https://" ++ h ++ ":" ++ toString cfg.httpsPort) = none →
      VEvent.proxied tname ∉ handleHttpsConn cfg env reg (some h)) := by
  refine ⟨fun hl => ?_, fun hl htls => ?_, fun hl htls => ?_,
    fun tname hl => ?_, fun tname hl => ?_⟩
  · simp [handleHttpConn, hl]
  · simp [handleHttpsConn, hl, htls]
  · simp [handleHttpsConn, hl, htls]
  · simp [handleHttpConn, hl]
  · by_cases htls : newTlsConfigOk cfg env <;> simp [handleHttpsConn, hl, htls]

/-- C8 witness: the amended theorem applied at an unregistered host on the
    HTTP listener over the empty registry. -/
theorem c8_amended_gateway_error_witness :
    handleHttpConn cfgNoAes envAllOk [] (some "x.example.com") =
      [VEvent.deadlineSet 20, VEvent.sniffed "x.example.com",
       VEvent.wroteBadGateway false, VEvent.closed] :=
  (c8_amended_gateway_error cfgNoAes envAllOk [] "x.example.com").1 rfl

/-- C9: with the configuration loaded and the log file opened, startup
    aborts fatally exactly when MaxIdlePipes or MaxStreams does not parse
    as an unsigned 64-bit integer, and otherwise proceeds to serving with
    the two parsed limits — so no other numeric-limit check can stop
    startup. -/
theorem c9_startup_numeric_limit_checks (cfg : ServerConfig) :
    ((mainStartup cfg true true).isFatal = true ↔
      (parseUint64 cfg.maxIdlePipes = none ∨ parseUint64 cfg.maxStreams = none)) ∧
    (∀ a b, parseUint64 cfg.maxIdlePipes = some a → parseUint64 cfg.maxStreams = some b →
      mainStartup cfg true true = StartupOutcome.serving a b) := by
  have hbase : mainStartup cfg true true =
      (match parseUint64 cfg.maxIdlePipes with
       | none => StartupOutcome.fatal "max_idle_pipes must be unsigned integer"
       | some mip =>
         match parseUint64 cfg.maxStreams with
         | none => StartupOutcome.fatal "max_idle_pipes must be unsigned integer"
         | some ms => StartupOutcome.serving mip ms) := by
    unfold mainStartup
    simp
  cases hm : parseUint64 cfg.maxIdlePipes <;> cases hs : parseUint64 cfg.maxStreams <;>
    rw [hbase] <;> simp [hm, hs, StartupOutcome.isFatal]

/-- C9 witness: the startup theorem applied at a configuration whose
    MaxIdlePipes value is not numeric. -/
theorem c9_startup_numeric_limit_checks_witness :
    (mainStartup { cfgNoAes with maxIdlePipes := "abc" } true true).isFatal = true :=
  ((c9_startup_numeric_limit_checks { cfgNoAes with maxIdlePipes := "abc" }).1).mpr
    (Or.inl (by decide))

/-- C10: on the HTTPS listener, when the certificate loads the sniffed
    connection is wrapped in a genuine TLS server termination, and a host
    with no registry entry still receives the gateway-error body inside
    that TLS stream; when loading the certificate fails, the connection
    is closed with no response at all, with the same trace for matched
    and unmatched hosts (the result does not depend on the registry). -/
theorem c10_https_termination_and_cert_failure (cfg : ServerConfig) (env : Env)
    (reg : Registry) (h : String) :
    (newTlsConfigOk cfg env →
      VEvent.tlsTerminated ∈ handleHttpsConn cfg env reg (some h) ∧
      (reg.lookup ("https://" ++ h ++ ":" ++ toString cfg.httpsPort) = none →
        handleHttpsConn cfg env reg (some h) =
          [VEvent.deadlineSet 20, VEvent.sniffed h, VEvent.tlsTerminated,
           VEvent.wroteBadGateway true, VEvent.closed])) ∧
    (¬ newTlsConfigOk cfg env →
      handleHttpsConn cfg env reg (some h) =
        [VEvent.deadlineSet 20, VEvent.sniffed h, VEvent.logged, VEvent.closed]) := by
  constructor
  · intro htls
    constructor
    · cases hl : reg.lookup ("https://" ++ h ++ ":" ++ toString cfg.httpsPort) <;>
        simp [handleHttpsConn, hl, htls]
    · intro hl
      simp [handleHttpsConn, hl, htls]
  · intro htls
    simp [handleHttpsConn, htls]

/-- C10 witness: the theorem applied at a matched host with a failing
    certificate load, showing the silent close on the matched side too. -/
theorem c10_https_termination_and_cert_failure_witness :
    handleHttpsConn cfgNoAes envNoTls regSample (some "b.example.com") =
      [VEvent.deadlineSet 20, VEvent.sniffed "b.example.com", VEvent.logged, VEvent.closed] :=
  (c10_https_termination_and_cert_failure cfgNoAes envNoTls regSample "b.example.com").2
    (by decide)

end Lunnel
